import Mathlib

set_option linter.unusedVariables false

/-- Python strings are modelled as lists of characters. -/
abbrev PyStr := List Char

/-- Python exception kinds arising in the modelled code paths. -/
inductive PyErr where
  | keyError
  | valueError
  | indexError
  | typeError
  | connectionError
  | nameError
  deriving DecidableEq, Repr

instance {ε α : Type} [DecidableEq ε] [DecidableEq α] : DecidableEq (Except ε α) := fun a b =>
  match a, b with
  | .error e₁, .error e₂ => decidable_of_iff (e₁ = e₂) (by simp)
  | .ok a₁, .ok a₂ => decidable_of_iff (a₁ = a₂) (by simp)
  | .error _, .ok _ => isFalse fun h => Except.noConfusion h
  | .ok _, .error _ => isFalse fun h => Except.noConfusion h

/-- Minimal JSON value model for the payloads handled by json.loads / json.dumps. -/
inductive Json where
  | obj (fields : List (PyStr × Json))
  | arr (elems : List Json)
  | str (s : PyStr)
  | num (q : ℚ)
  | null

/-- A stream record payload: either text that fails to parse as JSON, or a parsed JSON value. -/
inductive Payload where
  | malformed (raw : PyStr)
  | wellFormed (val : Json)

/-- Models Python json.loads: a payload that is not valid JSON raises ValueError. -/
def json_loads : Payload → Except PyErr Json
  | .malformed _ => .error .valueError
  | .wellFormed j => .ok j

/-- Models Python subscripting v[k] with a string key: dict lookup (KeyError when the key
is absent), TypeError on values that are not dicts. -/
def pyGetItemStr (j : Json) (k : PyStr) : Except PyErr Json :=
  match j with
  | .obj fields =>
    match fields.lookup k with
    | some v => .ok v
    | none => .error .keyError
  | _ => .error .typeError

/-- Models Python subscripting v[i] with an integer index: IndexError past the end of a
list, KeyError on a dict (no such key), one-character string on a string, TypeError
otherwise. -/
def pyGetItemNat (j : Json) (i : Nat) : Except PyErr Json :=
  match j with
  | .arr elems =>
    match elems.get? i with
    | some v => .ok v
    | none => .error .indexError
  | .obj _ => .error .keyError
  | .str s =>
    match s.get? i with
    | some c => .ok (.str [c])
    | none => .error .indexError
  | _ => .error .typeError

/-- Decimal digit character for a value below ten. -/
def digitChar : Nat → Char
  | 0 => '0' | 1 => '1' | 2 => '2' | 3 => '3' | 4 => '4'
  | 5 => '5' | 6 => '6' | 7 => '7' | 8 => '8' | _ => '9'

/-- Fuel-driven decimal rendering; the fuel is an upper bound on the number of
digits, so it never runs out when called through natDigits. -/
def natDigitsAux : Nat → Nat → PyStr
  | 0, _ => []
  | fuel + 1, n =>
    if n < 10 then [digitChar n]
    else natDigitsAux fuel (n / 10) ++ [digitChar (n % 10)]

/-- Decimal rendering of a natural number, as produced by Python str and strftime. -/
def natDigits (n : Nat) : PyStr := natDigitsAux (n + 1) n

/-- Zero-padded two-digit rendering, as produced by strftime %m %d %H %M. -/
def pad2 (n : Nat) : PyStr := if n < 10 then '0' :: natDigits n else natDigits n

/-- Signed decimal rendering of an integer. -/
def intDigits (i : Int) : PyStr :=
  if i < 0 then '-' :: natDigits i.natAbs else natDigits i.natAbs

/-- Civil (proleptic Gregorian, UTC) date from a count of days since 1970-01-01; the
standard era-based conversion, modelling the date part of datetime.fromtimestamp. -/
def civilFromDays (days : Nat) : Nat × Nat × Nat :=
  let z := days + 719468
  let era := z / 146097
  let doe := z % 146097
  let yoe := (doe - doe / 1460 + doe / 36524 - doe / 146096) / 365
  let y := yoe + era * 400
  let doy := doe - (365 * yoe + yoe / 4 - yoe / 100)
  let mp := (5 * doy + 2) / 153
  let d := doy - (153 * mp + 2) / 5 + 1
  let m := if mp < 10 then mp + 3 else mp - 9
  (if m ≤ 2 then y + 1 else y, m, d)

/-- Calendar date-time with minute precision. -/
structure CivilDT where
  year : Nat
  month : Nat
  day : Nat
  hour : Nat
  minute : Nat
  deriving DecidableEq, Repr

/-- Models datetime.fromtimestamp on a whole number of epoch seconds (UTC offset). -/
def epochToCivil (secs : Nat) : CivilDT where
  year := (civilFromDays (secs / 86400)).1
  month := (civilFromDays (secs / 86400)).2.1
  day := (civilFromDays (secs / 86400)).2.2
  hour := secs % 86400 / 3600
  minute := secs % 3600 / 60

/-- The calendar date (year, month, day) of a civil date-time. -/
def CivilDT.date (c : CivilDT) : Nat × Nat × Nat := (c.year, c.month, c.day)

/-- Models strftime with format "%Y-%m-%d". -/
def strftime_date (c : CivilDT) : PyStr :=
  natDigits c.year ++ '-' :: pad2 c.month ++ '-' :: pad2 c.day

/-- Models strftime with format "%Y-%m-%d %H:%M". -/
def strftime_YmdHM (c : CivilDT) : PyStr :=
  strftime_date c ++ ' ' :: pad2 c.hour ++ ':' :: pad2 c.minute

/-- Models strftime with format "%Y %m %d". -/
def strftime_Ymd_spaces (c : CivilDT) : PyStr :=
  natDigits c.year ++ ' ' :: pad2 c.month ++ ' ' :: pad2 c.day

/-- Accumulator pass over the characters for Python str.split() with no argument:
cur holds the current word reversed; a space closes the word (if any), any other
character extends it. -/
def pySplitWsAux (cur : List Char) : List Char → List (List Char)
  | [] => if cur.isEmpty then [] else [cur.reverse]
  | c :: rest =>
    if c = ' ' then
      if cur.isEmpty then pySplitWsAux [] rest
      else cur.reverse :: pySplitWsAux [] rest
    else pySplitWsAux (c :: cur) rest

/-- Models Python str.split() with no argument: split on runs of spaces, dropping
empty pieces. -/
def pySplitWs (l : List Char) : List (List Char) := pySplitWsAux [] l

/-- Models Python str.split(sep) with an explicit separator (keeps empty pieces). -/
def pySplitOn (sep : Char) : List Char → List (List Char)
  | [] => [[]]
  | c :: rest =>
    let r := pySplitOn sep rest
    if c = sep then [] :: r
    else (c :: r.headD []) :: r.tail

/-- Models "\n".join(items). -/
def joinNewlines : List PyStr → PyStr
  | [] => []
  | [x] => x
  | x :: rest => x ++ '\n' :: joinNewlines rest

/-- Left brace character (written numerically). -/
def lbrace : Char := Char.ofNat 123

/-- Right brace character (written numerically). -/
def rbrace : Char := Char.ofNat 125

/-- Double-quote character. -/
def dquote : Char := Char.ofNat 34

/-- Escape one character for inclusion in a JSON string literal. -/
def escapeChar (c : Char) : PyStr :=
  if c = dquote ∨ c = '\\' then ['\\', c] else [c]

/-- Escape a string for inclusion in a JSON string literal. -/
def escapeStr (s : PyStr) : PyStr := s.foldr (fun c acc => escapeChar c ++ acc) []

/-- Canonical rendering of a JSON number (Python float formatting is not reproduced;
no claim inspects these characters). -/
def ratDumps (q : ℚ) : PyStr :=
  if q.den = 1 then intDigits q.num else intDigits q.num ++ '/' :: natDigits q.den

mutual

/-- Models Python json.dumps on a JSON value. -/
def json_dumps : Json → PyStr
  | .obj fields => lbrace :: dumpsFields fields ++ [rbrace]
  | .arr elems => '[' :: dumpsElems elems ++ [']']
  | .str s => dquote :: escapeStr s ++ [dquote]
  | .num q => ratDumps q
  | .null => ['n', 'u', 'l', 'l']

/-- Serialize the key/value pairs of a JSON object. -/
def dumpsFields : List (PyStr × Json) → PyStr
  | [] => []
  | (k, v) :: rest =>
    (dquote :: escapeStr k ++ dquote :: ':' :: ' ' :: json_dumps v) ++
      (if rest.isEmpty then [] else [',', ' ']) ++ dumpsFields rest

/-- Serialize the elements of a JSON array. -/
def dumpsElems : List Json → PyStr
  | [] => []
  | v :: rest =>
    json_dumps v ++ (if rest.isEmpty then [] else [',', ' ']) ++ dumpsElems rest

end

/-- Numeric value of a decimal digit character, if it is one. -/
def digitVal (c : Char) : Option Nat :=
  if 48 ≤ c.toNat ∧ c.toNat ≤ 57 then some (c.toNat - 48) else none

/-- Accumulating decimal parser over a character list. -/
def parseNatAux (acc : Nat) : PyStr → Option Nat
  | [] => some acc
  | c :: rest =>
    match digitVal c with
    | some d => parseNatAux (acc * 10 + d) rest
    | none => none

/-- Models Python int(s) on a string of decimal digits. -/
def parseNatDigits (l : PyStr) : Option Nat :=
  if l.isEmpty then none else parseNatAux 0 l

/-- A pulled stream record; the Data field holds the payload text. -/
structure KinesisRecord where
  data : Payload

/-- Text of a payload: the raw text when unparsed, the canonical serialization of
the parsed value otherwise. -/
def payloadText : Payload → PyStr
  | .malformed raw => raw
  | .wellFormed j => json_dumps j

/-- Models json.dumps(record) on a pulled record dict carrying its Data field. -/
def json_dumps_record (r : KinesisRecord) : PyStr :=
  lbrace :: (dquote :: escapeStr ['D', 'a', 't', 'a'] ++ dquote :: ':' :: ' ' ::
    dquote :: escapeStr (payloadText r.data) ++ [dquote]) ++ [rbrace]

/-- Observable actions of one consumer engine cycle, in order of occurrence:
assigning the stored shard iterator, checking a record (by its position in the
pull), transforming it, invoking send_records with a batch, and sleeping. -/
inductive Event (β : Type) where
  | advanceCursor (tok : PyStr)
  | filterRecord (idx : Nat)
  | transformRecord (idx : Nat)
  | sinkWrite (batch : List β)
  | sleep (seconds : Nat)
  deriving DecidableEq

/-- Mutable consumer state: the stored shard iterator (the in-memory cursor). -/
structure ConsumerState where
  shard_iterator : PyStr
  deriving DecidableEq

/-- Result of client.get_records: a page of records plus NextShardIterator, or a
throttling failure (ProvisionedThroughputExceededException). -/
inductive GetRecordsResult (α : Type) where
  | ok (records : List α) (nextShardIterator : PyStr)
  | throttled

/-- Models the record loop of KinesisConsumer.pull interleaved with the consuming
loop of KinesisConsumer.run: each record is checked; a record passing the check is
transformed, appended to the accumulated batch, and send_records is invoked with
the accumulated batch; an exception raised by the check or the transform aborts
the loop and propagates. Returns the events, the final batch, and the exception
if one was raised. -/
def process_loop {α β : Type} (check : α → Except PyErr Bool)
    (transform : α → Except PyErr β) :
    List α → List β → Nat → List (Event β) × List β × Option PyErr
  | [], batch, _ => ([], batch, none)
  | r :: rest, batch, idx =>
    match check r with
    | .error e => ([.filterRecord idx], batch, some e)
    | .ok false =>
      let out := process_loop check transform rest batch (idx + 1)
      (.filterRecord idx :: out.1, out.2)
    | .ok true =>
      match transform r with
      | .error e => ([.filterRecord idx], batch, some e)
      | .ok p =>
        let out := process_loop check transform rest (batch ++ [p]) (idx + 1)
        (.filterRecord idx :: .transformRecord idx :: .sinkWrite (batch ++ [p]) :: out.1,
          out.2)

/-- One iteration of the while-True loop of KinesisConsumer.run, with get_records
abstracted by its result. On a successful pull the stored shard iterator is
assigned the pull's NextShardIterator before the record loop runs, and the engine
sleeps the configured period afterwards. The only except clause of pull names
ProvisionedThroughputExceededException, a name kinesis.py never imports, so
whenever an exception reaches it, evaluating the clause itself raises NameError,
which propagates and terminates the consumer: on a throttled get_records the
iterator is unchanged and no backoff sleep ever runs; an exception raised in the
record loop likewise escapes as NameError (iterator already assigned, no sleep). -/
def run_cycle {α β : Type} (check : α → Except PyErr Bool)
    (transform : α → Except PyErr β) (st : ConsumerState) (res : GetRecordsResult α)
    (sleep_period : Nat) : ConsumerState × List (Event β) × Option PyErr :=
  match res with
  | .throttled => (st, [], some .nameError)
  | .ok records next =>
    let out := process_loop check transform records [] 0
    match out.2.2 with
    | none => (⟨next⟩, .advanceCursor next :: out.1 ++ [.sleep sleep_period], none)
    | some _ => (⟨next⟩, .advanceCursor next :: out.1, some .nameError)

/-- The batches passed to send_records during a cycle, in order. -/
def sinkBatches {β : Type} (evs : List (Event β)) : List (List β) :=
  evs.filterMap fun e =>
    match e with
    | .sinkWrite b => some b
    | _ => none

/-- Whether an event is an assignment of the stored shard iterator. -/
def eventIsAdvance {β : Type} : Event β → Bool
  | .advanceCursor _ => true
  | _ => false

/-- One object-store write performed by a consumer sink. -/
inductive S3Op where
  | create (key : PyStr) (content : PyStr)
  | overwrite (key : PyStr) (content : PyStr)
  deriving DecidableEq

/-- The key an object-store write targets. -/
def S3Op.key : S3Op → PyStr
  | .create k _ => k
  | .overwrite k _ => k

/-- The content an object-store write stores. -/
def S3Op.content : S3Op → PyStr
  | .create _ c => c
  | .overwrite _ c => c

/-- Whether the write creates a new object rather than rewriting an existing one. -/
def S3Op.isCreate : S3Op → Bool
  | .create _ _ => true
  | .overwrite _ _ => false

/-- Models pathos ProcessingPool.map over fallible work: all results are collected
and an exception raised by any worker is re-raised at the map call. -/
def poolMap {α β : Type} (f : α → Except PyErr β) : List α → Except PyErr (List β)
  | [] => .ok []
  | x :: xs =>
    match f x, poolMap f xs with
    | .error e, _ => .error e
    | .ok _, .error e => .error e
    | .ok y, .ok ys => .ok (y :: ys)

namespace ForexProducer

/-- Models ForexProducer.pull: fetch the exchange rate text for every configured
currency pair through the worker pool (get_exchange_rate is abstracted by the
fetch function), then yield json.dumps(json.loads(text)) for each result. An
exception from any stage propagates out of the pull. -/
def pull (fetch : PyStr → Except PyErr Payload) (currencies : List PyStr) :
    Except PyErr (List PyStr) :=
  match poolMap fetch currencies with
  | .error e => .error e
  | .ok exchange_data =>
    poolMap (fun x =>
      match json_loads x with
      | .ok j => .ok (json_dumps j)
      | .error e => .error e) exchange_data

/-- The records the cycle actually publishes (KinesisProducer.run publishes each
yielded record as it is produced; an exception stops the cycle, keeping the
records yielded before it). -/
def cycle_publishes (fetch : PyStr → Except PyErr Payload) (currencies : List PyStr) :
    List PyStr :=
  match poolMap fetch currencies with
  | .error _ => []
  | .ok exchange_data => yield_prefix exchange_data
where
  /-- Records yielded by the generator loop before any json.loads failure. -/
  yield_prefix : List Payload → List PyStr
    | [] => []
    | x :: xs =>
      match json_loads x with
      | .ok j => json_dumps j :: yield_prefix xs
      | .error _ => []

end ForexProducer

namespace KinesisConsumer

/-- Arguments of the client.get_shard_iterator call made in KinesisConsumer.__init__. -/
structure ShardIteratorRequest where
  stream_name : PyStr
  shard_id : PyStr
  shard_iterator_type : PyStr
  deriving DecidableEq

/-- Models the get_shard_iterator call in KinesisConsumer.__init__: the constructor
receives begin_read ("where to begin reading") but always requests the position
"LATEST". -/
def init_shard_iterator_request (stream_name shard_id begin_read : PyStr) :
    ShardIteratorRequest :=
  ⟨stream_name, shard_id, ['L', 'A', 'T', 'E', 'S', 'T']⟩

end KinesisConsumer

/-- Decoded quote event: the fields read out of prices[0] by the processed consumer. -/
structure QuoteEvent where
  instrument : PyStr
  time : Nat
  bid : ℚ
  ask : ℚ
  deriving DecidableEq

/-- Output of ForexConsumerProcessed.process_record: the tuple
(ticker_name, rate_time, bid, ask). -/
structure NormalizedTuple where
  name : PyStr
  time : Nat
  bid : ℚ
  ask : ℚ
  deriving DecidableEq

/-- String content of a JSON value; TypeError where the code would slice a
non-string. -/
def json_str_value : Json → Except PyErr PyStr
  | .str s => .ok s
  | _ => .error .typeError

/-- Numeric content of a JSON value; TypeError where the code would divide with a
non-number. -/
def json_num_value : Json → Except PyErr ℚ
  | .num q => .ok q
  | _ => .error .typeError

/-- Epoch value of the JSON time field. The source carries the field as a decimal
string and applies int() in send_record; the model parses it at extraction. -/
def json_time_value : Json → Except PyErr Nat
  | .str s =>
    match parseNatDigits s with
    | some n => .ok n
    | none => .error .valueError
  | .num q => if q.den = 1 ∧ 0 ≤ q.num then .ok q.num.toNat else .error .valueError
  | _ => .error .typeError

/-- The JSON key "prices". -/
def pricesKey : PyStr := ['p', 'r', 'i', 'c', 'e', 's']

/-- The JSON key "instrument". -/
def instrumentKey : PyStr := ['i', 'n', 's', 't', 'r', 'u', 'm', 'e', 'n', 't']

/-- The JSON key "time". -/
def timeKey : PyStr := ['t', 'i', 'm', 'e']

/-- The JSON key "bid". -/
def bidKey : PyStr := ['b', 'i', 'd']

/-- The JSON key "ask". -/
def askKey : PyStr := ['a', 's', 'k']

namespace ForexConsumerProcessed

/-- Models ForexConsumerProcessed.check_record_validity: evaluate
json.loads(record['Data'])['prices'][0]; only KeyError is caught (returning
False); any other exception propagates. -/
def check_record_validity (record : KinesisRecord) : Except PyErr Bool :=
  match (json_loads record.data).bind
      (fun j => (pyGetItemStr j pricesKey).bind (fun p => pyGetItemNat p 0)) with
  | .ok _ => .ok true
  | .error .keyError => .ok false
  | .error e => .error e

/-- Models the decoding stage of ForexConsumerProcessed.process_record: load the
JSON payload and read instrument, time, bid and ask out of prices[0]. -/
def extract_quote (record : KinesisRecord) : Except PyErr QuoteEvent := do
  let exchange_data_json ← json_loads record.data
  let prices ← pyGetItemStr exchange_data_json pricesKey
  let instrument_data ← pyGetItemNat prices 0
  let name ← json_str_value (← pyGetItemStr instrument_data instrumentKey)
  let rate_time ← json_time_value (← pyGetItemStr instrument_data timeKey)
  let bid ← json_num_value (← pyGetItemStr instrument_data bidKey)
  let ask ← json_num_value (← pyGetItemStr instrument_data askKey)
  pure ⟨name, rate_time, bid, ask⟩

/-- Models ForexConsumerProcessed.process_record: decode the quote, then: if the
instrument's first three characters are USD, invert bid and ask and take the
ticker from the characters after position 4; otherwise take the first three
characters and leave bid and ask unchanged. -/
def process_record (record : KinesisRecord) : Except PyErr NormalizedTuple := do
  let q ← extract_quote record
  let name := q.instrument
  if name.take 3 = ['U', 'S', 'D'] then
    pure ⟨name.drop 4, q.time, 1 / q.bid, 1 / q.ask⟩
  else
    pure ⟨name.take 3, q.time, q.bid, q.ask⟩

/-- Models the record_time computation in ForexConsumerProcessed.send_record:
datetime.fromtimestamp(int(int(UNIX_time) / 1000000)).strftime("%Y-%m-%d %H:%M"). -/
def record_time_chars (unix_time : Nat) : PyStr :=
  strftime_YmdHM (epochToCivil (unix_time / 1000000))

/-- Models record_time.split()[0].split("-") in send_record (the split of the
formatted time is never empty, so Python's [0] is its head). -/
def time_list (unix_time : Nat) : List PyStr :=
  pySplitOn '-' ((pySplitWs (record_time_chars unix_time)).headD [])

/-- Models the CSV row "{},{},{},{}\n".format(...) built in send_record, with the
time component replaced by record_time; Python float rendering is abstracted by
the float_repr parameter. -/
def instrument_data_row (float_repr : ℚ → PyStr) (r : NormalizedTuple) : PyStr :=
  r.name ++ ',' :: record_time_chars r.time ++ ',' :: float_repr r.bid ++
    ',' :: float_repr r.ask ++ ['\n']

/-- Models the key path INSTRUMENT_NAME/YEAR/MONTH/DAY/TODAYS-DATA.csv computed in
send_record. -/
def key_path (r : NormalizedTuple) : PyStr :=
  r.name ++ '/' :: (time_list r.time).getD 0 [] ++ '/' :: (time_list r.time).getD 1 []
    ++ '/' :: (time_list r.time).getD 2 []
    ++ '/' :: ['T', 'O', 'D', 'A', 'Y', 'S', '-', 'D', 'A', 'T', 'A', '.', 'c', 's', 'v']

/-- Models ForexConsumerProcessed.send_record: read the object at the computed key
from the bucket (modelled as a map from keys to contents); if it exists, append
the row to its contents and rewrite it, otherwise create it with the row. -/
def send_record (float_repr : ℚ → PyStr) (bucket : PyStr → Option PyStr)
    (processed_record : NormalizedTuple) : S3Op :=
  match bucket (key_path processed_record) with
  | some todays_data_as_string =>
    .overwrite (key_path processed_record)
      (todays_data_as_string ++ instrument_data_row float_repr processed_record)
  | none =>
    .create (key_path processed_record) (instrument_data_row float_repr processed_record)

end ForexConsumerProcessed

namespace ForexConsumerRaw

/-- Models ForexConsumerRaw.check_record_validity, textually identical to the
processed variant: only KeyError is caught. -/
def check_record_validity (record : KinesisRecord) : Except PyErr Bool :=
  match (json_loads record.data).bind
      (fun j => (pyGetItemStr j pricesKey).bind (fun p => pyGetItemNat p 0)) with
  | .ok _ => .ok true
  | .error .keyError => .ok false
  | .error e => .error e

/-- Models ForexConsumerRaw.process_record: json.dumps(record). -/
def process_record (record : KinesisRecord) : PyStr :=
  json_dumps_record record

/-- Models ForexConsumerRaw.send_records: join the given records with newlines and
write them to one newly created key Y/M/D/FOREX-RAW-DATA-(epoch seconds); now is
the wall-clock time.time() value at the call. -/
def send_records (now : Nat) (processed_records : List PyStr) : S3Op :=
  let record_time := pySplitWs (strftime_Ymd_spaces (epochToCivil now))
  let all_records_together := joinNewlines processed_records
  let new_key_name := record_time.getD 0 [] ++ '/' :: record_time.getD 1 [] ++ '/' ::
    record_time.getD 2 [] ++ '/' ::
    (['F', 'O', 'R', 'E', 'X', '-', 'R', 'A', 'W', '-', 'D', 'A', 'T', 'A', '-'] ++
      natDigits now)
  .create new_key_name all_records_together

end ForexConsumerRaw

/-- The SLEEP_PERIOD value configured in both consumer main() entry points. -/
def SLEEP_PERIOD : Nat := 60

/-- Demonstration payload carrying a USD_EUR quote (the worked example of the
specification). -/
def demoPayload1 : Payload :=
  .wellFormed (.obj [(pricesKey, .arr [.obj
    [(instrumentKey, .str ['U', 'S', 'D', '_', 'E', 'U', 'R']),
     (timeKey, .str (natDigits 1577836800000000)),
     (bidKey, .num (9 / 10)),
     (askKey, .num (91 / 100))]])])

/-- Demonstration record wrapping demoPayload1. -/
def demoRecord1 : KinesisRecord := ⟨demoPayload1⟩

/-- Demonstration payload carrying an XAU_USD quote. -/
def demoPayload2 : Payload :=
  .wellFormed (.obj [(pricesKey, .arr [.obj
    [(instrumentKey, .str ['X', 'A', 'U', '_', 'U', 'S', 'D']),
     (timeKey, .str (natDigits 1577836860000000)),
     (bidKey, .num 1520),
     (askKey, .num 1521)]])])

/-- Demonstration record wrapping demoPayload2. -/
def demoRecord2 : KinesisRecord := ⟨demoPayload2⟩

/-- A record whose parsed payload lacks the prices key. -/
def noPricesRecord : KinesisRecord := ⟨.wellFormed (.obj [(['f', 'o', 'o'], Json.null)])⟩

/-- A record whose payload is not valid JSON. -/
def malformedRecord : KinesisRecord := ⟨.malformed ['o', 'o', 'p', 's']⟩

/-- A record whose parsed payload has an empty prices list. -/
def emptyPricesRecord : KinesisRecord := ⟨.wellFormed (.obj [(pricesKey, .arr [])])⟩

theorem digitChar_ne_space (k : Nat) : digitChar k ≠ ' ' := by
  unfold digitChar
  split <;> decide

theorem natDigitsAux_no_space (fuel : Nat) :
    ∀ (n : Nat), ∀ c ∈ natDigitsAux fuel n, c ≠ ' ' := by
  induction fuel with
  | zero => intro n c hc; simp [natDigitsAux] at hc
  | succ fuel ih =>
    intro n c hc
    simp only [natDigitsAux] at hc
    split at hc
    · simp at hc
      subst hc
      exact digitChar_ne_space n
    · rw [List.mem_append] at hc
      rcases hc with hc | hc
      · exact ih _ c hc
      · simp at hc
        subst hc
        exact digitChar_ne_space (n % 10)

theorem natDigits_no_space (n : Nat) : ∀ c ∈ natDigits n, c ≠ ' ' :=
  natDigitsAux_no_space (n + 1) n

theorem natDigits_ne_nil (n : Nat) : natDigits n ≠ [] := by
  unfold natDigits natDigitsAux
  split <;> simp

theorem pad2_no_space (n : Nat) : ∀ c ∈ pad2 n, c ≠ ' ' := by
  intro c hc
  unfold pad2 at hc
  split at hc
  · rcases List.mem_cons.mp hc with h | h
    · subst h; decide
    · exact natDigits_no_space n c h
  · exact natDigits_no_space n c hc

theorem strftime_date_no_space (c : CivilDT) : ∀ x ∈ strftime_date c, x ≠ ' ' := by
  intro x hx
  unfold strftime_date at hx
  simp only [List.append_assoc, List.cons_append, List.mem_append, List.mem_cons] at hx
  rcases hx with h | h | h | h | h
  · exact natDigits_no_space _ x h
  · subst h; decide
  · exact pad2_no_space _ x h
  · subst h; decide
  · exact pad2_no_space _ x h

theorem strftime_date_ne_nil (c : CivilDT) : strftime_date c ≠ [] := by
  unfold strftime_date
  simp [natDigits_ne_nil]

theorem pySplitWsAux_no_space_chunk (l1 : List Char) :
    ∀ (cur rest : List Char), (∀ c ∈ l1, c ≠ ' ') →
      pySplitWsAux cur (l1 ++ rest) = pySplitWsAux (l1.reverse ++ cur) rest := by
  induction l1 with
  | nil => intro cur rest h; simp
  | cons c l1 ih =>
    intro cur rest h
    have hc : c ≠ ' ' := h c (List.mem_cons_self _ _)
    simp only [List.cons_append, pySplitWsAux, if_neg hc, List.append_eq]
    rw [ih (c :: cur) rest fun x hx => h x (List.mem_cons_of_mem _ hx)]
    simp [List.append_assoc]

theorem pySplitWs_head (l1 l2 : List Char) (h1 : l1 ≠ []) (h2 : ∀ c ∈ l1, c ≠ ' ') :
    (pySplitWs (l1 ++ ' ' :: l2)).headD [] = l1 := by
  unfold pySplitWs
  rw [pySplitWsAux_no_space_chunk l1 [] (' ' :: l2) h2]
  have hne : (l1.reverse ++ []).isEmpty = false := by
    simp [List.isEmpty_iff, h1]
  simp only [pySplitWsAux, if_pos rfl, hne]
  simp

theorem pySplitWs_strftime_YmdHM_head (c : CivilDT) :
    (pySplitWs (strftime_YmdHM c)).headD [] = strftime_date c := by
  have h : strftime_YmdHM c =
      strftime_date c ++ ' ' :: (pad2 c.hour ++ ':' :: pad2 c.minute) := by
    simp [strftime_YmdHM, List.append_assoc]
  rw [h]
  exact pySplitWs_head _ _ (strftime_date_ne_nil c) (strftime_date_no_space c)

theorem strftime_date_congr {c₁ c₂ : CivilDT} (h : c₁.date = c₂.date) :
    strftime_date c₁ = strftime_date c₂ := by
  unfold strftime_date
  rw [show c₁.year = c₂.year from congrArg Prod.fst h,
    show c₁.month = c₂.month from congrArg (fun p => p.2.1) h,
    show c₁.day = c₂.day from congrArg (fun p => p.2.2) h]

theorem epochToCivil_minute_congr {s₁ s₂ : Nat} (h : s₁ / 60 = s₂ / 60) :
    epochToCivil s₁ = epochToCivil s₂ := by
  have hd : s₁ / 86400 = s₂ / 86400 := by omega
  have hh : s₁ % 86400 / 3600 = s₂ % 86400 / 3600 := by omega
  have hm : s₁ % 3600 / 60 = s₂ % 3600 / 60 := by omega
  simp [epochToCivil, hd, hh, hm]

theorem sinkBatches_filterRecord {β : Type} (i : Nat) (evs : List (Event β)) :
    sinkBatches (.filterRecord i :: evs) = sinkBatches evs := rfl

theorem sinkBatches_transformRecord {β : Type} (i : Nat) (evs : List (Event β)) :
    sinkBatches (.transformRecord i :: evs) = sinkBatches evs := rfl

theorem sinkBatches_advanceCursor {β : Type} (tok : PyStr) (evs : List (Event β)) :
    sinkBatches (.advanceCursor tok :: evs) = sinkBatches evs := rfl

theorem sinkBatches_sleep {β : Type} (s : Nat) (evs : List (Event β)) :
    sinkBatches (.sleep s :: evs) = sinkBatches evs := rfl

theorem sinkBatches_sinkWrite {β : Type} (b : List β) (evs : List (Event β)) :
    sinkBatches (.sinkWrite b :: evs) = b :: sinkBatches evs := rfl

theorem sinkBatches_append {β : Type} (evs₁ evs₂ : List (Event β)) :
    sinkBatches (evs₁ ++ evs₂) = sinkBatches evs₁ ++ sinkBatches evs₂ := by
  simp [sinkBatches, List.filterMap_append]

theorem process_loop_no_advance {α β : Type} (check : α → Except PyErr Bool)
    (transform : α → Except PyErr β) :
    ∀ (recs : List α) (batch : List β) (idx : Nat),
      ∀ e ∈ (process_loop check transform recs batch idx).1, eventIsAdvance e = false := by
  intro recs
  induction recs with
  | nil =>
    intro batch idx e he
    simp [process_loop] at he
  | cons r rest ih =>
    intro batch idx e he
    rcases hc : check r with er | b
    · simp only [process_loop, hc] at he
      simp at he
      subst he
      rfl
    · rcases b with _ | _
      · simp only [process_loop, hc, List.mem_cons] at he
        rcases he with rfl | he
        · rfl
        · exact ih _ _ e he
      · rcases ht : transform r with er | p
        · simp only [process_loop, hc, ht] at he
          simp at he
          subst he
          rfl
        · simp only [process_loop, hc, ht, List.mem_cons] at he
          rcases he with rfl | rfl | rfl | he
          · rfl
          · rfl
          · rfl
          · exact ih _ _ e he

theorem process_loop_sinkBatches_idx {α β : Type} (check : α → Except PyErr Bool)
    (transform : α → Except PyErr β) :
    ∀ (recs : List α) (batch : List β) (i j : Nat),
      sinkBatches (process_loop check transform recs batch i).1 =
        sinkBatches (process_loop check transform recs batch j).1 := by
  intro recs
  induction recs with
  | nil => intro batch i j; rfl
  | cons r rest ih =>
    intro batch i j
    rcases hc : check r with er | b
    · simp only [process_loop, hc]
      rfl
    · rcases b with _ | _
      · simp only [process_loop, hc, sinkBatches_filterRecord]
        exact ih batch (i + 1) (j + 1)
      · rcases ht : transform r with er | p
        · simp only [process_loop, hc, ht]
          rfl
        · simp only [process_loop, hc, ht, sinkBatches_filterRecord,
            sinkBatches_transformRecord, sinkBatches_sinkWrite]
          exact congrArg _ (ih (batch ++ [p]) (i + 1) (j + 1))

theorem process_loop_sinkBatches_eraseIdx {α β : Type} (check : α → Except PyErr Bool)
    (transform : α → Except PyErr β) :
    ∀ (recs : List α) (i : Nat) (r : α) (batch : List β) (k : Nat),
      recs.get? i = some r → check r = .ok false →
      sinkBatches (process_loop check transform recs batch k).1 =
        sinkBatches (process_loop check transform (recs.eraseIdx i) batch k).1 := by
  intro recs
  induction recs with
  | nil => intro i r batch k hget hcheck; simp at hget
  | cons r₀ rest ih =>
    intro i r batch k hget hcheck
    cases i with
    | zero =>
      simp only [List.get?] at hget
      injection hget with hget
      subst hget
      simp only [List.eraseIdx]
      simp only [process_loop, hcheck, sinkBatches_filterRecord]
      exact process_loop_sinkBatches_idx check transform rest batch (k + 1) k
    | succ i =>
      simp only [List.get?] at hget
      simp only [List.eraseIdx]
      rcases hc : check r₀ with er | b
      · simp only [process_loop, hc]
      · rcases b with _ | _
        · simp only [process_loop, hc, sinkBatches_filterRecord]
          exact ih i r batch (k + 1) hget hcheck
        · rcases ht : transform r₀ with er | p
          · simp only [process_loop, hc, ht]
          · simp only [process_loop, hc, ht, sinkBatches_filterRecord,
              sinkBatches_transformRecord, sinkBatches_sinkWrite]
            exact congrArg _ (ih i r (batch ++ [p]) (k + 1) hget hcheck)

theorem run_cycle_sinkBatches {α β : Type} (check : α → Except PyErr Bool)
    (transform : α → Except PyErr β) (st : ConsumerState) (records : List α)
    (next : PyStr) (sleep_period : Nat) :
    sinkBatches (run_cycle check transform st (.ok records next) sleep_period).2.1 =
      sinkBatches (process_loop check transform records [] 0).1 := by
  simp only [run_cycle]
  rcases h : (process_loop check transform records [] 0).2.2 with _ | e
  · simp only [h, sinkBatches_advanceCursor, sinkBatches_append]
    simp [sinkBatches]
  · simp only [h, sinkBatches_advanceCursor]

theorem exbind_ok {ε α β : Type} (a : α) (f : α → Except ε β) :
    (Except.ok a : Except ε α).bind f = f a := rfl

theorem exbind_error {ε α β : Type} (e : ε) (f : α → Except ε β) :
    (Except.error e : Except ε α).bind f = .error e := rfl

/-- C1: for every decoded QuoteEvent whose instrument pair is reference-first (USD,
then the separator, then a three-character symbol), the processed transform returns
the symbol after the separator with bid and ask replaced by their inverses; for
every decoded QuoteEvent whose pair does not begin with USD it returns the first
three characters of the pair with bid and ask unchanged. -/
theorem processed_normalization_correct :
    (∀ (record : KinesisRecord) (q : QuoteEvent) (sym : PyStr),
      ForexConsumerProcessed.extract_quote record = .ok q →
      q.instrument = ['U', 'S', 'D', '_'] ++ sym → sym.length = 3 →
      0 < q.bid → 0 < q.ask →
      ForexConsumerProcessed.process_record record =
        .ok ⟨sym, q.time, 1 / q.bid, 1 / q.ask⟩) ∧
    (∀ (record : KinesisRecord) (q : QuoteEvent),
      ForexConsumerProcessed.extract_quote record = .ok q →
      q.instrument.take 3 ≠ ['U', 'S', 'D'] →
      ForexConsumerProcessed.process_record record =
        .ok ⟨q.instrument.take 3, q.time, q.bid, q.ask⟩) := by
  have hred : ∀ (record : KinesisRecord) (q : QuoteEvent),
      ForexConsumerProcessed.extract_quote record = .ok q →
      ForexConsumerProcessed.process_record record =
        (if q.instrument.take 3 = ['U', 'S', 'D'] then
          pure ⟨q.instrument.drop 4, q.time, 1 / q.bid, 1 / q.ask⟩
        else pure ⟨q.instrument.take 3, q.time, q.bid, q.ask⟩ :
          Except PyErr NormalizedTuple) := by
    intro record q hq
    unfold ForexConsumerProcessed.process_record
    rw [hq]
    rfl
  constructor
  · intro record q sym hq hinst hlen hbid hask
    rw [hred record q hq, hinst,
      if_pos (show (['U', 'S', 'D', '_'] ++ sym).take 3 = ['U', 'S', 'D'] from rfl)]
    rfl
  · intro record q hq hinst
    rw [hred record q hq, if_neg hinst]
    rfl

/-- Witness for C1 at the specification's worked example USD_EUR (inverted) and at
the reference-second pair XAU_USD (unchanged). -/
theorem processed_normalization_correct_witness :
    ForexConsumerProcessed.process_record demoRecord1 =
      .ok ⟨['E', 'U', 'R'], 1577836800000000, 1 / (9 / 10), 1 / (91 / 100)⟩ ∧
    ForexConsumerProcessed.process_record demoRecord2 =
      .ok ⟨['X', 'A', 'U'], 1577836860000000, 1520, 1521⟩ := by
  constructor
  · exact processed_normalization_correct.1 demoRecord1
      ⟨['U', 'S', 'D', '_', 'E', 'U', 'R'], 1577836800000000, 9 / 10, 91 / 100⟩
      ['E', 'U', 'R'] rfl rfl rfl (by norm_num) (by norm_num)
  · exact processed_normalization_correct.2 demoRecord2
      ⟨['X', 'A', 'U', '_', 'U', 'S', 'D'], 1577836860000000, 1520, 1521⟩
      rfl (by decide)

/-- C6 counterexample: constructed with an explicit resume position "tok", the
consumer still requests its initial shard iterator at LATEST, not at the supplied
position. -/
theorem begin_read_ignored_cex :
    (KinesisConsumer.init_shard_iterator_request ['f', 'x'] ['s', 'h']
        ['t', 'o', 'k']).shard_iterator_type ≠ ['t', 'o', 'k'] ∧
    (KinesisConsumer.init_shard_iterator_request ['f', 'x'] ['s', 'h']
        ['t', 'o', 'k']).shard_iterator_type = ['L', 'A', 'T', 'E', 'S', 'T'] :=
  ⟨by decide, rfl⟩

/-- C6 amended: the initial shard iterator is always requested at position LATEST;
the begin_read configuration value is stored but never used for the request. -/
theorem initial_iterator_always_latest (stream_name shard_id begin_read : PyStr) :
    (KinesisConsumer.init_shard_iterator_request stream_name shard_id
        begin_read).shard_iterator_type = ['L', 'A', 'T', 'E', 'S', 'T'] := rfl

/-- C4 counterexample: on a throttled pull the stored cursor is indeed unchanged,
but no backoff sleep of any length occurs (the cycle's event list is empty) and
there is no next pull attempt: the except clause names
ProvisionedThroughputExceededException, which kinesis.py never imports, so the
handler itself raises NameError and the consumer crashes; in particular no sleep
strictly longer than the configured 60-second poll interval precedes a retry. -/
theorem throttle_no_backoff_cex :
    run_cycle ForexConsumerProcessed.check_record_validity
        ForexConsumerProcessed.process_record ⟨['i', 't', '0']⟩ .throttled SLEEP_PERIOD =
      (⟨['i', 't', '0']⟩, [], some .nameError) ∧
    SLEEP_PERIOD = 60 :=
  ⟨rfl, rfl⟩

/-- C4 amended: a pull attempt failing with the throttling error leaves the
consumer's stored cursor unchanged, but it is followed by no backoff sleep and no
next pull attempt at all: the handler references the unimported name
ProvisionedThroughputExceededException, so the except clause itself raises
NameError, which propagates and terminates the consumer (the intended 30-second
backoff never runs). -/
theorem throttle_crash_preserves_cursor {α β : Type}
    (check : α → Except PyErr Bool) (transform : α → Except PyErr β)
    (st : ConsumerState) (sleep_period : Nat) :
    run_cycle check transform st .throttled sleep_period =
      (st, [], some PyErr.nameError) :=
  rfl

/-- A fetch function failing for EUR_USD and succeeding for every other pair. -/
def demoFetch : PyStr → Except PyErr Payload := fun pair =>
  if pair = ['E', 'U', 'R', '_', 'U', 'S', 'D'] then .error .connectionError
  else .ok (.wellFormed (.str ['o', 'k']))

theorem poolMap_error_of_mem {α β : Type} (f : α → Except PyErr β) :
    ∀ (xs : List α) (x : α) (e : PyErr), x ∈ xs → f x = .error e →
      ∃ e', poolMap f xs = .error e' := by
  intro xs
  induction xs with
  | nil => intro x e h; cases h
  | cons y ys ih =>
    intro x e hmem hfail
    rcases List.mem_cons.mp hmem with rfl | hmem
    · exact ⟨e, by simp [poolMap, hfail]⟩
    · rcases hy : f y with ey | vy
      · exact ⟨ey, by simp [poolMap, hy]⟩
      · obtain ⟨e', he'⟩ := ih x e hmem hfail
        exact ⟨e', by simp [poolMap, hy, he']⟩

/-- C7 counterexample: with a fetch failing only for EUR_USD, the USD_CAD payload
is fetchable yet the whole producer pull raises and nothing is published for any
key in that cycle. -/
theorem fetch_failure_aborts_other_keys_cex :
    demoFetch ['U', 'S', 'D', '_', 'C', 'A', 'D'] = .ok (.wellFormed (.str ['o', 'k'])) ∧
    ForexProducer.pull demoFetch
        [['E', 'U', 'R', '_', 'U', 'S', 'D'], ['U', 'S', 'D', '_', 'C', 'A', 'D']] =
      .error .connectionError ∧
    ForexProducer.cycle_publishes demoFetch
        [['E', 'U', 'R', '_', 'U', 'S', 'D'], ['U', 'S', 'D', '_', 'C', 'A', 'D']] = [] :=
  ⟨rfl, rfl, rfl⟩

/-- C7 amended: a fetch failure for any one key aborts the entire producer cycle:
the pull raises instead of isolating the failure, and no payload is published for
any key that cycle; there is no per-key drop or logging in the source. -/
theorem fetch_failure_aborts_cycle (fetch : PyStr → Except PyErr Payload)
    (currencies : List PyStr) (c : PyStr) (e : PyErr)
    (hmem : c ∈ currencies) (hfail : fetch c = .error e) :
    (ForexProducer.pull fetch currencies).isOk = false ∧
    ForexProducer.cycle_publishes fetch currencies = [] := by
  obtain ⟨e', he'⟩ := poolMap_error_of_mem fetch currencies c e hmem hfail
  constructor
  · simp [ForexProducer.pull, he', Except.isOk, Except.toBool]
  · simp [ForexProducer.cycle_publishes, he']

/-- Witness for C7 at a concrete two-key cycle whose first fetch fails. -/
theorem fetch_failure_aborts_cycle_witness :
    demoFetch ['E', 'U', 'R', '_', 'U', 'S', 'D'] = .error .connectionError ∧
    (ForexProducer.pull demoFetch
        [['E', 'U', 'R', '_', 'U', 'S', 'D'], ['U', 'S', 'D', '_', 'C', 'A', 'D']]).isOk
      = false ∧
    ForexProducer.cycle_publishes demoFetch
        [['E', 'U', 'R', '_', 'U', 'S', 'D'], ['U', 'S', 'D', '_', 'C', 'A', 'D']] = [] := by
  have h := fetch_failure_aborts_cycle demoFetch
    [['E', 'U', 'R', '_', 'U', 'S', 'D'], ['U', 'S', 'D', '_', 'C', 'A', 'D']]
    ['E', 'U', 'R', '_', 'U', 'S', 'D'] .connectionError
    (List.mem_cons_self _ _) rfl
  exact ⟨rfl, h.1, h.2⟩

/-- C3 counterexample: on a successful pull returning one record, the stored
cursor is assigned the pull's next-cursor value as the very first action of the
cycle, before the record is filtered and transformed. -/
theorem cursor_advanced_before_processing_cex :
    run_cycle ForexConsumerProcessed.check_record_validity
        ForexConsumerProcessed.process_record ⟨['i', 't', '0']⟩
        (.ok [demoRecord1] ['i', 't', '1']) SLEEP_PERIOD =
      (⟨['i', 't', '1']⟩,
        [.advanceCursor ['i', 't', '1'], .filterRecord 0, .transformRecord 0,
          .sinkWrite [⟨['E', 'U', 'R'], 1577836800000000, 1 / (9 / 10), 1 / (91 / 100)⟩],
          .sleep SLEEP_PERIOD], none) := rfl

/-- C3 amended: on every successful pull, the stored cursor is advanced to the
pull's next-cursor value exactly once and as the first action of the cycle,
before any record is filtered or transformed (not after the entire pull's
records have been processed). -/
theorem cursor_advance_first_in_cycle {α β : Type} (check : α → Except PyErr Bool)
    (transform : α → Except PyErr β) (st : ConsumerState) (records : List α)
    (next : PyStr) (sleep_period : Nat) :
    (run_cycle check transform st (.ok records next) sleep_period).1 = ⟨next⟩ ∧
    ((run_cycle check transform st (.ok records next) sleep_period).2.1).headD (.sleep 0)
      = .advanceCursor next ∧
    ∀ e ∈ ((run_cycle check transform st (.ok records next) sleep_period).2.1).tail,
      eventIsAdvance e = false := by
  have hne : ∀ e ∈ (process_loop check transform records [] 0).1, eventIsAdvance e = false :=
    process_loop_no_advance check transform records [] 0
  rcases h : (process_loop check transform records [] 0).2.2 with _ | e
  · refine ⟨?_, ?_, ?_⟩
    · simp [run_cycle, h]
    · simp [run_cycle, h]
    · intro e he
      simp only [run_cycle, h, List.cons_append, List.tail_cons, List.mem_append,
        List.mem_singleton] at he
      rcases he with he | rfl
      · exact hne e he
      · rfl
  · refine ⟨?_, ?_, ?_⟩
    · simp [run_cycle, h]
    · simp [run_cycle, h]
    · intro e' he
      simp only [run_cycle, h, List.tail_cons] at he
      exact hne e' he

/-- C2: the run loop invokes send_records once per validated record with the
partial accumulated batch, not exactly once per pull with the full batch: on a
pull returning two valid records the sink is invoked twice, first with a
one-record batch and then with the two-record batch. -/
theorem sink_invoked_per_record_demo :
    (sinkBatches (run_cycle ForexConsumerProcessed.check_record_validity
        ForexConsumerProcessed.process_record ⟨['i', 't', '0']⟩
        (.ok [demoRecord1, demoRecord2] ['i', 't', '1']) SLEEP_PERIOD).2.1).map List.length
      = [1, 2] := rfl

/-- The two object-store writes performed by the archival consumer during the
demonstration cycle with two valid records, the first at wall-clock second
1000000 and the second at 1000060. -/
def raw_demo_ops : List S3Op :=
  List.zipWith ForexConsumerRaw.send_records [1000000, 1000060]
    (sinkBatches (run_cycle ForexConsumerRaw.check_record_validity
      (fun r => .ok (ForexConsumerRaw.process_record r)) ⟨['i', 't', '0']⟩
      (.ok [demoRecord1, demoRecord2] ['i', 't', '1']) SLEEP_PERIOD).2.1)

/-- C8: every archival send_records call creates exactly one new object and never
reads or rewrites an existing one; but because the run loop invokes send_records
once per record, a cycle with two valid records creates two objects (not one),
the first holding only the first record and the second holding both. -/
theorem raw_sink_always_creates_demo :
    (∀ (now : Nat) (processed_records : List PyStr),
      (ForexConsumerRaw.send_records now processed_records).isCreate = true) ∧
    raw_demo_ops.map S3Op.content =
      [ForexConsumerRaw.process_record demoRecord1,
        ForexConsumerRaw.process_record demoRecord1 ++ '\n' ::
          ForexConsumerRaw.process_record demoRecord2] ∧
    raw_demo_ops.length = 2 ∧
    (raw_demo_ops.map S3Op.key).getD 0 [] ≠ (raw_demo_ops.map S3Op.key).getD 1 [] := by
  refine ⟨fun now processed_records => rfl, rfl, rfl, by decide⟩

/-- C5 counterexample: a record whose payload cannot be parsed is not dropped
silently: check_record_validity raises ValueError in both strategies (only
KeyError is caught), a record with an empty prices list raises IndexError, and in
a running cycle the record's error escapes the record loop uncaught — the broken
except clause turns it into NameError — aborting the cycle instead of continuing. -/
theorem invalid_payload_propagates_cex :
    ForexConsumerProcessed.check_record_validity malformedRecord = .error .valueError ∧
    ForexConsumerRaw.check_record_validity malformedRecord = .error .valueError ∧
    ForexConsumerProcessed.check_record_validity emptyPricesRecord = .error .indexError ∧
    (run_cycle ForexConsumerProcessed.check_record_validity
        ForexConsumerProcessed.process_record ⟨['i', 't', '0']⟩
        (.ok [malformedRecord] ['i', 't', '1']) SLEEP_PERIOD).2.2 = some .nameError :=
  ⟨rfl, rfl, rfl, rfl⟩

/-- C5 amended: a parsed payload lacking the prices key is dropped without error
by both strategies (the check returns false) and contributes nothing to any batch
passed to the sink (the cycle's sink batches equal those of the same pull with the
record removed); but a payload that cannot be parsed raises ValueError and a
payload whose prices list is empty raises IndexError, both uncaught, aborting the
cycle rather than being dropped. -/
theorem validity_filter_behavior :
    (∀ fields : List (PyStr × Json), fields.lookup pricesKey = none →
      ForexConsumerProcessed.check_record_validity ⟨.wellFormed (.obj fields)⟩ = .ok false ∧
      ForexConsumerRaw.check_record_validity ⟨.wellFormed (.obj fields)⟩ = .ok false) ∧
    (∀ raw : PyStr,
      ForexConsumerProcessed.check_record_validity ⟨.malformed raw⟩ = .error .valueError ∧
      ForexConsumerRaw.check_record_validity ⟨.malformed raw⟩ = .error .valueError) ∧
    (∀ fields : List (PyStr × Json), fields.lookup pricesKey = some (.arr []) →
      ForexConsumerProcessed.check_record_validity ⟨.wellFormed (.obj fields)⟩ =
        .error .indexError ∧
      ForexConsumerRaw.check_record_validity ⟨.wellFormed (.obj fields)⟩ =
        .error .indexError) ∧
    (∀ {α β : Type} (check : α → Except PyErr Bool) (transform : α → Except PyErr β)
      (st : ConsumerState) (records : List α) (next : PyStr) (sleep_period i : Nat)
      (r : α), records.get? i = some r → check r = .ok false →
      sinkBatches (run_cycle check transform st (.ok records next) sleep_period).2.1 =
        sinkBatches (run_cycle check transform st
          (.ok (records.eraseIdx i) next) sleep_period).2.1) := by
  refine ⟨?_, fun raw => ⟨rfl, rfl⟩, ?_, ?_⟩
  · intro fields h
    constructor
    · simp only [ForexConsumerProcessed.check_record_validity, json_loads, exbind_ok,
        pyGetItemStr, h, exbind_error]
    · simp only [ForexConsumerRaw.check_record_validity, json_loads, exbind_ok,
        pyGetItemStr, h, exbind_error]
  · intro fields h
    constructor
    · simp only [ForexConsumerProcessed.check_record_validity, json_loads, exbind_ok,
        pyGetItemStr, h, pyGetItemNat, exbind_error]
      rfl
    · simp only [ForexConsumerRaw.check_record_validity, json_loads, exbind_ok,
        pyGetItemStr, h, pyGetItemNat, exbind_error]
      rfl
  · intro α β check transform st records next sleep_period i r hget hcheck
    rw [run_cycle_sinkBatches, run_cycle_sinkBatches]
    exact process_loop_sinkBatches_eraseIdx check transform records i r [] 0 hget hcheck

/-- Witness for C5 at concrete records: the record lacking the prices key is
dropped by both strategies, the empty-prices record raises IndexError, and
removing the dropped record from a two-record pull leaves the cycle's sink
batches unchanged. -/
theorem validity_filter_behavior_witness :
    ForexConsumerProcessed.check_record_validity noPricesRecord = .ok false ∧
    ForexConsumerRaw.check_record_validity noPricesRecord = .ok false ∧
    ForexConsumerRaw.check_record_validity emptyPricesRecord = .error .indexError ∧
    sinkBatches (run_cycle ForexConsumerProcessed.check_record_validity
        ForexConsumerProcessed.process_record ⟨['i', 't', '0']⟩
        (.ok [demoRecord1, noPricesRecord] ['i', 't', '1']) SLEEP_PERIOD).2.1 =
      sinkBatches (run_cycle ForexConsumerProcessed.check_record_validity
        ForexConsumerProcessed.process_record ⟨['i', 't', '0']⟩
        (.ok [demoRecord1] ['i', 't', '1']) SLEEP_PERIOD).2.1 := by
  refine ⟨(validity_filter_behavior.1 [(['f', 'o', 'o'], Json.null)] rfl).1,
    (validity_filter_behavior.1 [(['f', 'o', 'o'], Json.null)] rfl).2,
    (validity_filter_behavior.2.2.1 [(pricesKey, Json.arr [])] rfl).2, ?_⟩
  exact validity_filter_behavior.2.2.2 ForexConsumerProcessed.check_record_validity
    ForexConsumerProcessed.process_record ⟨['i', 't', '0']⟩
    [demoRecord1, noPricesRecord] ['i', 't', '1'] SLEEP_PERIOD 1 noPricesRecord rfl rfl

theorem time_list_congr {u₁ u₂ : Nat}
    (h : (epochToCivil (u₁ / 1000000)).date = (epochToCivil (u₂ / 1000000)).date) :
    ForexConsumerProcessed.time_list u₁ = ForexConsumerProcessed.time_list u₂ := by
  unfold ForexConsumerProcessed.time_list ForexConsumerProcessed.record_time_chars
  rw [pySplitWs_strftime_YmdHM_head, pySplitWs_strftime_YmdHM_head, strftime_date_congr h]

/-- C9: the storage key computed by the processed sink is a pure function of the
record's symbol and the calendar date of its timestamp: any two records with equal
symbol and equal calendar date yield the same key, and every bucket write of
send_record targets exactly that key, whatever the bucket state or batch. -/
theorem partition_key_pure_function :
    (∀ r₁ r₂ : NormalizedTuple, r₁.name = r₂.name →
      (epochToCivil (r₁.time / 1000000)).date = (epochToCivil (r₂.time / 1000000)).date →
      ForexConsumerProcessed.key_path r₁ = ForexConsumerProcessed.key_path r₂) ∧
    (∀ (float_repr : ℚ → PyStr) (bucket : PyStr → Option PyStr) (r : NormalizedTuple),
      (ForexConsumerProcessed.send_record float_repr bucket r).key =
        ForexConsumerProcessed.key_path r) := by
  constructor
  · intro r₁ r₂ hname hdate
    unfold ForexConsumerProcessed.key_path
    rw [hname, time_list_congr hdate]
  · intro float_repr bucket r
    unfold ForexConsumerProcessed.send_record
    cases bucket (ForexConsumerProcessed.key_path r) <;> rfl

/-- Witness for C9: two records with the same symbol at 00:00 and 12:00 of the
same calendar date receive the same storage key, and a write targets it. -/
theorem partition_key_pure_function_witness :
    (epochToCivil (1577836800000000 / 1000000)).date =
      (epochToCivil (1577880000000000 / 1000000)).date ∧
    ForexConsumerProcessed.key_path ⟨['E', 'U', 'R'], 1577836800000000, 1, 1⟩ =
      ForexConsumerProcessed.key_path ⟨['E', 'U', 'R'], 1577880000000000, 2, 3⟩ ∧
    (ForexConsumerProcessed.send_record (fun _ => []) (fun _ => none)
        ⟨['E', 'U', 'R'], 1577836800000000, 1, 1⟩).key =
      ForexConsumerProcessed.key_path ⟨['E', 'U', 'R'], 1577836800000000, 1, 1⟩ := by
  refine ⟨by decide, partition_key_pure_function.1 _ _ rfl (by decide),
    partition_key_pure_function.2 _ _ _⟩

/-- C10: the timestamp stored in the sink row is the source epoch value integer
divided by 1000000 and formatted to minute precision (%Y-%m-%d %H:%M), so seconds
are discarded: any two quotes in the same calendar minute produce identical
timestamp strings, and rows agreeing on the other fields become identical. -/
theorem timestamp_minute_truncation :
    (∀ u : Nat, ForexConsumerProcessed.record_time_chars u =
      strftime_YmdHM (epochToCivil (u / 1000000))) ∧
    (∀ u₁ u₂ : Nat, u₁ / 1000000 / 60 = u₂ / 1000000 / 60 →
      ForexConsumerProcessed.record_time_chars u₁ =
        ForexConsumerProcessed.record_time_chars u₂) ∧
    (∀ (float_repr : ℚ → PyStr) (r₁ r₂ : NormalizedTuple),
      r₁.name = r₂.name → r₁.bid = r₂.bid → r₁.ask = r₂.ask →
      r₁.time / 1000000 / 60 = r₂.time / 1000000 / 60 →
      ForexConsumerProcessed.instrument_data_row float_repr r₁ =
        ForexConsumerProcessed.instrument_data_row float_repr r₂) := by
  refine ⟨fun u => rfl, ?_, ?_⟩
  · intro u₁ u₂ h
    unfold ForexConsumerProcessed.record_time_chars
    rw [epochToCivil_minute_congr h]
  · intro float_repr r₁ r₂ hn hb ha ht
    unfold ForexConsumerProcessed.instrument_data_row
      ForexConsumerProcessed.record_time_chars
    rw [hn, hb, ha, epochToCivil_minute_congr ht]

/-- Witness for C10 at two quotes 59.999999 seconds apart within one calendar
minute: their stored timestamp strings coincide. -/
theorem timestamp_minute_truncation_witness :
    1577836800000000 / 1000000 / 60 = 1577836859999999 / 1000000 / 60 ∧
    ForexConsumerProcessed.record_time_chars 1577836800000000 =
      ForexConsumerProcessed.record_time_chars 1577836859999999 := by
  refine ⟨by decide, timestamp_minute_truncation.2.1 _ _ (by decide)⟩

/-- Witness for the amended C3 statement at a concrete one-record pull under the
processed strategy. -/
theorem cursor_advance_first_in_cycle_witness :
    (run_cycle ForexConsumerProcessed.check_record_validity
        ForexConsumerProcessed.process_record ⟨['i', 't', '0']⟩
        (.ok [demoRecord1] ['i', 't', '1']) SLEEP_PERIOD).1 = ⟨['i', 't', '1']⟩ ∧
    ((run_cycle ForexConsumerProcessed.check_record_validity
        ForexConsumerProcessed.process_record ⟨['i', 't', '0']⟩
        (.ok [demoRecord1] ['i', 't', '1']) SLEEP_PERIOD).2.1).headD (.sleep 0) =
      .advanceCursor ['i', 't', '1'] ∧
    eventIsAdvance (((run_cycle ForexConsumerProcessed.check_record_validity
        ForexConsumerProcessed.process_record ⟨['i', 't', '0']⟩
        (.ok [demoRecord1] ['i', 't', '1']) SLEEP_PERIOD).2.1).tail.getD 0 (.sleep 0)) =
      false := by
  have h := cursor_advance_first_in_cycle ForexConsumerProcessed.check_record_validity
    ForexConsumerProcessed.process_record ⟨['i', 't', '0']⟩ [demoRecord1]
    ['i', 't', '1'] SLEEP_PERIOD
  exact ⟨h.1, h.2.1, h.2.2 _ (List.Mem.head _)⟩
